import Mathlib

/-!
Verification of the gait feature-extraction pipeline in pdkit
(src/pdkit/gait_processor.py) against its specification.

The Python code is shallowly embedded over exact rationals.  Floating-point
numbers are idealised as rationals (real numbers only where a square root is
genuinely needed), and the external numeric primitives that the spec treats as
black-box collaborators (FFT, Butterworth filter, interpeak estimator, wavelet
decomposition, numerical integrator, autocorrelation, square root) are
parameters gathered in the `Prims` structure, so theorems quantify over every
possible behaviour of those primitives.  Utility functions of the repository
that are not part of src/ but whose behaviour the spec pins down exactly
(hysteresis peak detection, zero-crossing detection) are modelled concretely
from the spec text.  Python exceptions are modelled with `Except PyErr`.
-/

attribute [local semireducible] Rat.add Rat.mul Rat.sub Rat.inv

set_option maxRecDepth 100000

/-- Python exceptions that the embedded code paths can raise. -/
inductive PyErr where
  | nameError
  | indexError
  | valueError
  | keyError
deriving DecidableEq

instance {ε α : Type} [DecidableEq ε] [DecidableEq α] : DecidableEq (Except ε α) := fun a b =>
  match a, b with
  | Except.error e, Except.error f =>
    if h : e = f then Decidable.isTrue (by rw [h])
    else Decidable.isFalse (fun hc => h (by injection hc))
  | Except.error _, Except.ok _ => Decidable.isFalse (fun hc => Except.noConfusion hc)
  | Except.ok _, Except.error _ => Decidable.isFalse (fun hc => Except.noConfusion hc)
  | Except.ok u, Except.ok v =>
    if h : u = v then Decidable.isTrue (by rw [h])
    else Decidable.isFalse (fun hc => h (by injection hc))

/-- Floor of a rational, computed on the normalised numerator/denominator. -/
def ratFloor (q : ℚ) : ℤ := q.num.fdiv q.den

/-- Python `int()` applied to a rational: truncation toward zero. -/
def pyTrunc (q : ℚ) : ℤ := q.num.tdiv q.den

/-- numpy `round` / Python 3 `round`: round half to even, to an integer. -/
def roundHalfEven (q : ℚ) : ℤ :=
  let f := ratFloor q
  let r := q - (f : ℚ)
  if r < 1 / 2 then f
  else if 1 / 2 < r then f + 1
  else if f % 2 = 0 then f else f + 1

/-- Absolute value of a rational, written with an explicit test so that it
evaluates by kernel reduction. -/
def ratAbs (q : ℚ) : ℚ := if q < 0 then -q else q

/-- Normalise one Python slice bound against a sequence of length n:
negative indices count from the end, then the result is clamped to [0, n]. -/
def pyIdx (n : ℕ) (i : ℤ) : ℕ :=
  let j := if i < 0 then i + n else i
  let j2 := if j < 0 then 0 else j
  (if (n : ℤ) < j2 then (n : ℤ) else j2).toNat

/-- Python slice l[a:b] (step 1) with full negative-index and clamping
semantics, as used by list and one-dimensional numpy indexing. -/
def pySlice {α : Type} (l : List α) (a b : ℤ) : List α :=
  let s := pyIdx l.length a
  let e := pyIdx l.length b
  (l.drop s).take (e - s)

/-- Python `range(a, b)` over integers. -/
def intRange (a b : ℤ) : List ℤ := (List.range (b - a).toNat).map (fun k => a + k)

/-- Positional element access that raises (models pandas/numpy lookup at a
possibly out-of-range index inside a comprehension). -/
def pyLookup (l : List ℚ) (i : ℤ) : Except PyErr ℚ :=
  if 0 ≤ i ∧ i.toNat < l.length then Except.ok (l.getD i.toNat 0)
  else Except.error PyErr.keyError

/-- np.mean over a list of rationals.  On the empty list this gives 0 where
numpy gives NaN; it is only used on lists that are nonempty on the modelled
paths, or in positions where both compared sides use the same value. -/
def mean (l : List ℚ) : ℚ := l.sum / (l.length : ℚ)

/-- Subtract the mean from every sample (the repeated demeaning step). -/
def demean (l : List ℚ) : List ℚ := l.map (fun v => v - mean l)

/-- np.argmax: index of the first maximal element (0 on the empty list;
callers guard emptiness, where numpy raises). -/
def argmaxGo : List ℚ → ℕ → ℕ → ℚ → ℕ
  | [], _, bi, _ => bi
  | v :: r, i, bi, bv =>
    if bv < v then argmaxGo r (i + 1) i v else argmaxGo r (i + 1) bi bv

def argmaxFirst : List ℚ → ℕ
  | [] => 0
  | v :: r => argmaxGo r 1 0 v

/-- np.max of a nonempty list (callers guard the empty case). -/
def pymax (l : List ℚ) : ℚ := l.foldl (fun a b => if a < b then b else a) (l.headD 0)

/-- Pointwise combination of the three axis signals. -/
def zipWith3Q (f : ℚ → ℚ → ℚ → ℚ) : List ℚ → List ℚ → List ℚ → List ℚ
  | a :: l1, b :: l2, c :: l3 => f a b c :: zipWith3Q f l1 l2 l3
  | _, _, _ => []

/-- State of the hysteresis peak detector scan. -/
structure PDState where
  mn : ℚ
  mx : ℚ
  mnpos : ℕ
  mxpos : ℕ
  lookformax : Bool
  maxtab : List (ℕ × ℚ)
  mintab : List (ℕ × ℚ)
deriving DecidableEq

/-- One pass of the hysteresis peak scan over the remaining samples. -/
def peakdetGo (delta : ℚ) : List ℚ → ℕ → PDState → PDState
  | [], _, s => s
  | v :: r, i, s0 =>
    let s1 := if s0.mx < v then { s0 with mx := v, mxpos := i } else s0
    let s2 := if v < s1.mn then { s1 with mn := v, mnpos := i } else s1
    let s3 :=
      if s2.lookformax then
        if v < s2.mx - delta then
          { s2 with maxtab := s2.maxtab ++ [(s2.mxpos, s2.mx)],
                    mn := v, mnpos := i, lookformax := false }
        else s2
      else
        if s2.mn + delta < v then
          { s2 with mintab := s2.mintab ++ [(s2.mnpos, s2.mn)],
                    mx := v, mxpos := i, lookformax := true }
        else s2
    peakdetGo delta r (i + 1) s3

/-- Modelled from the spec: the repository utility `peakdet` (utils.py is not
under src/).  Spec section 6: a `(series, delta) -> (maxima, minima)` detector
where a local point qualifies as a peak only if the signal rises by at least
delta before it and falls by at least delta after it — the standard hysteresis
peak-picking scan; each tab entry is an (index, value) pair. -/
def peakdet (v : List ℚ) (delta : ℚ) : List (ℕ × ℚ) × List (ℕ × ℚ) :=
  match v with
  | [] => ([], [])
  | v0 :: _ =>
    let s := peakdetGo delta v 0
      { mn := v0, mx := v0, mnpos := 0, mxpos := 0,
        lookformax := true, maxtab := [], mintab := [] }
    (s.maxtab, s.mintab)

/-- Modelled from the spec: the repository utility `crossings_nonzero_pos2neg`
(utils.py is not under src/).  Spec section 6: sorted indices where the signal
transitions from non-negative to negative between consecutive samples. -/
def crossings_nonzero_pos2neg (f : List ℚ) : List ℕ :=
  (List.range (f.length - 1)).filter
    (fun i => decide (0 ≤ f.getD i 0) && decide (f.getD (i + 1) 0 < 0))

/-- The external numeric primitives consumed by the gait processor, kept
abstract so every theorem quantifies over their behaviour (spec section 6):
Butterworth low-pass filter, spectral interpeak estimator, autocorrelation,
FFT (complex output as re/im pairs), numerical band-power integrator, discrete
wavelet decomposition, and floating square root. -/
structure Prims where
  butter : List ℚ → ℚ → ℚ → ℕ → List ℚ
  interpeakFn : List ℚ → ℚ → ℕ
  autocorrelationFn : List ℚ → List ℚ
  fft : List ℚ → ℕ → List (ℚ × ℚ)
  numerical_integration : List ℚ → ℚ → ℚ
  wavedec : List ℚ → ℕ → List (List ℚ)
  sqrtFn : ℚ → ℚ

/-- The processing configuration held by a GaitProcessor instance
(constructor of gait_processor.py), plus the recording duration used by
`gait`.  `distance` is `none` when unset. -/
structure GaitCfg where
  sampling_frequency : ℚ
  cutoff_frequency : ℚ
  filter_order : ℕ
  window : ℕ
  step_size : ℕ
  start_end_offset : ℕ × ℕ
  delta : ℚ
  loco_band : ℚ × ℚ
  freeze_band : ℚ × ℚ
  stride_fraction : ℚ
  order : ℕ
  threshold : ℚ
  distance : Option ℚ
  duration : ℚ
deriving DecidableEq

/-- Concrete primitive instantiation used by witnesses: the identity filter
(a Butterworth low-pass with cutoff near Nyquist is close to the identity), a
constant interpeak estimate, identity autocorrelation, a real-signal FFT stub,
the rectangle integration rule, and identity square root. -/
def basePrims : Prims where
  butter := fun d _ _ _ => d
  interpeakFn := fun _ _ => 8
  autocorrelationFn := id
  fft := fun y _ => y.map (fun v => (v, 0))
  numerical_integration := fun l _ => l.sum
  wavedec := fun _ _ => []
  sqrtFn := id

/-- Small concrete configuration used by witnesses and counterexamples. -/
def baseCfg : GaitCfg where
  sampling_frequency := 1
  cutoff_frequency := 2
  filter_order := 2
  window := 2
  step_size := 1
  start_end_offset := (1, 1)
  delta := 1
  loco_band := (1 / 2, 1)
  freeze_band := (1, 2)
  stride_fraction := 1 / 8
  order := 4
  threshold := 1 / 4
  distance := some 90
  duration := 10

/-! ## Band-energy freeze detector: freeze_of_gait (lines 101-151)

The resampler is external (Processor.resample_signal); the embedding takes the
resampled y-axis signal directly as input, as the spec's data model allows. -/

/-- Band edge to FFT bin: bin = int(band_edge / (sampling_frequency / window)),
lines 113-117. -/
def bandBin (cfg : GaitCfg) (edge : ℚ) : ℤ :=
  pyTrunc (edge / (cfg.sampling_frequency / (cfg.window : ℚ)))

/-- The window slice data[jStart:jPos] with jStart = jPos - window (line 131). -/
def fogWindow (data : List ℚ) (window jPos : ℕ) : List ℚ :=
  (data.drop (jPos - window)).take (jPos - (jPos - window))

/-- Power spectrum of one window: demean, FFT to `window` points, then
Pyy = abs(Y*Y)/window = (re^2+im^2)/window (lines 132-135). -/
def fogPyy (prims : Prims) (cfg : GaitCfg) (data : List ℚ) (jPos : ℕ) : List ℚ :=
  (prims.fft (demean (fogWindow data cfg.window jPos)) cfg.window).map
    (fun c => (c.1 * c.1 + c.2 * c.2) / (cfg.window : ℚ))

/-- Locomotor-band area of the window ending at jPos:
numerical_integration(Pyy[f_nr_LBs-1 : f_nr_LBe], sampling_frequency), line 137. -/
def locoAreaAt (prims : Prims) (cfg : GaitCfg) (data : List ℚ) (jPos : ℕ) : ℚ :=
  prims.numerical_integration
    (pySlice (fogPyy prims cfg data jPos)
      (bandBin cfg cfg.loco_band.1 - 1) (bandBin cfg cfg.loco_band.2))
    cfg.sampling_frequency

/-- Freeze-band area of the window ending at jPos, line 138. -/
def freezeAreaAt (prims : Prims) (cfg : GaitCfg) (data : List ℚ) (jPos : ℕ) : ℚ :=
  prims.numerical_integration
    (pySlice (fogPyy prims cfg data jPos)
      (bandBin cfg cfg.freeze_band.1 - 1) (bandBin cfg cfg.freeze_band.2))
    cfg.sampling_frequency

/-- The while loop of freeze_of_gait (lines 126-145), structurally recursive
on a fuel argument; `data.length` steps of fuel are enough because jPos grows
by step_size >= 1 while jPos < len(data).  (With step_size = 0 the Python loop
never terminates; the fuel then runs out, on a path that never returns in
Python either.)  Components: (time, freezeIndex, sumLocoFreeze). -/
def fogLoop (prims : Prims) (cfg : GaitCfg) (data : List ℚ) :
    ℕ → ℕ → List ℕ × List ℚ × List ℚ
  | 0, _ => ([], [], [])
  | fuel + 1, jPos =>
    if jPos < data.length then
      let aL := locoAreaAt prims cfg data jPos
      let aF := freezeAreaAt prims cfg data jPos
      let rest := fogLoop prims cfg data fuel (jPos + cfg.step_size)
      (jPos :: rest.1, (aF / aL) :: rest.2.1, (aF + aL) :: rest.2.2)
    else ([], [], [])

/-- freeze_of_gait on the resampled y-axis signal: returns
[freeze_times, freeze_indexes, locomotion_freezes] (lines 119-151).
Dividing by a zero locomotor area is the unguarded rational division
(x / 0 = 0 here; numpy produces a non-finite float, and neither raises). -/
def freeze_of_gait (prims : Prims) (cfg : GaitCfg) (data : List ℚ) :
    List ℕ × List ℚ × List ℚ :=
  fogLoop prims cfg data data.length (cfg.window + 1)

/-- The locomotor-band area of window i of a run: the window ends at
jPos = window + 1 + i * step_size. -/
def loco_band_area (prims : Prims) (cfg : GaitCfg) (data : List ℚ) (i : ℕ) : ℚ :=
  locoAreaAt prims cfg data (cfg.window + 1 + i * cfg.step_size)

/-- The freeze-band area of window i of a run. -/
def freeze_band_area (prims : Prims) (cfg : GaitCfg) (data : List ℚ) (i : ℕ) : ℚ :=
  freezeAreaAt prims cfg data (cfg.window + 1 + i * cfg.step_size)

/-! ## Peak-frequency estimator: frequency_of_peaks (lines 153-166) -/

/-- frequency_of_peaks on the x-axis signal (lines 161-166).  Note that
line 163 computes np.mean(peaks_data[maxtab[1:,0]] - peaks_data[maxtab[:-1,0]]):
differences of the signal VALUES at successive peak indices, not of the
indices themselves.  With fewer than two maxima Python raises or divides by a
NaN mean; here the total rational model then returns 1 / 0 = 0 (the claim and
theorem only concern the two-or-more-peaks case). -/
def frequency_of_peaks (cfg : GaitCfg) (x : List ℚ) : ℚ :=
  let peaks_data := pySlice x (cfg.start_end_offset.1 : ℤ) (-(cfg.start_end_offset.2 : ℤ))
  let maxtab := (peakdet peaks_data cfg.delta).1
  let vals := maxtab.map (fun p => peaks_data.getD p.1 0)
  let diffs := (vals.zip (vals.drop 1)).map (fun q => q.2 - q.1)
  1 / mean diffs

/-- The quantity the spec describes instead: the reciprocal of the mean
inter-peak sample spacing, i.e. of the differences of successive peak
POSITIONS, in sample units. -/
def peak_position_spacing_freq (cfg : GaitCfg) (x : List ℚ) : ℚ :=
  let peaks_data := pySlice x (cfg.start_end_offset.1 : ℤ) (-(cfg.start_end_offset.2 : ℤ))
  let maxtab := (peakdet peaks_data cfg.delta).1
  let pos := maxtab.map (fun p => (p.1 : ℚ))
  let diffs := (pos.zip (pos.drop 1)).map (fun q => q.2 - q.1)
  1 / mean diffs

/-! ## Wavelet speed estimator: speed_of_gait (lines 168-192) -/

/-- speed_of_gait on the mag_sum_acc column (lines 179-192).  wavedec returns
[approx, detail_level, ..., detail_1]; energy[i] takes coeffs[level - i], so
energy runs over the detail bands finest to coarsest.  WEd6 is computed by the
source but absent from the returned value, faithfully preserved here. -/
def speed_of_gait (prims : Prims) (mag_sum_acc : List ℚ) (wavelet_level : ℕ) : ℚ :=
  let coeffs := prims.wavedec mag_sum_acc wavelet_level
  let energy := (List.range wavelet_level).map (fun i =>
    let c := coeffs.getD (wavelet_level - i) []
    (c.map (fun v => v * v)).sum / (c.length : ℚ))
  let s2 := prims.sqrtFn 2
  let WEd1 := energy.getD 0 0 / (5 * s2)
  let WEd2 := energy.getD 1 0 / (4 * s2)
  let WEd3 := energy.getD 2 0 / (3 * s2)
  let WEd4 := energy.getD 3 0 / (2 * s2)
  let WEd5 := energy.getD 4 0 / s2
  let WEd6 := energy.getD 5 0 / s2
  (1 / 2) * prims.sqrtFn (WEd1 + WEd2 / 2 + WEd3 / 3 + WEd4 / 4 + WEd5 / 5)

/-- Detail-band energy number k (k = 1 finest .. 6 coarsest) of a 6-level
decomposition [approx, d6, d5, d4, d3, d2, d1]: sum of squared coefficients of
coeffs[7 - k] divided by the coefficient count. -/
def detail_energy (coeffs : List (List ℚ)) (k : ℕ) : ℚ :=
  let c := coeffs.getD (7 - k) []
  (c.map (fun v => v * v)).sum / (c.length : ℚ)

/-! ## Regularity/symmetry analyzer: walk_regularity_symmetry (lines 195-219) -/

/-- The inner _symmetry helper (lines 203-205): second and third detected peak
amplitudes of the autocorrelation curve; fewer than three maxima raises
IndexError in Python (maxtab[1] or maxtab[2]). -/
def _symmetry (cfg : GaitCfg) (v : List ℚ) : Except PyErr (ℚ × ℚ) :=
  let maxtab := (peakdet v cfg.delta).1
  if 2 < maxtab.length then
    Except.ok ((maxtab.getD 1 (0, 0)).2, (maxtab.getD 2 (0, 0)).2)
  else Except.error PyErr.indexError

/-- walk_regularity_symmetry (lines 207-219): per axis x, y, z, step and
stride regularity from the autocorrelation peaks, and walk symmetry as their
difference; returns [step_regularity, stride_regularity, walk_symmetry]. -/
def walk_regularity_symmetry (prims : Prims) (cfg : GaitCfg) (x y z : List ℚ) :
    Except PyErr (List ℚ × List ℚ × List ℚ) :=
  match _symmetry cfg (prims.autocorrelationFn x),
        _symmetry cfg (prims.autocorrelationFn y),
        _symmetry cfg (prims.autocorrelationFn z) with
  | Except.ok px, Except.ok py, Except.ok pz =>
    Except.ok ([px.1, py.1, pz.1], [px.2, py.2, pz.2],
               [px.2 - px.1, py.2 - py.1, pz.2 - pz.1])
  | Except.error e, _, _ => Except.error e
  | _, Except.error e, _ => Except.error e
  | _, _, Except.error e => Except.error e

/-- Second detected peak amplitude of a curve (the claim's step regularity). -/
def second_peak_amp (cfg : GaitCfg) (v : List ℚ) : ℚ :=
  ((peakdet v cfg.delta).1.getD 1 (0, 0)).2

/-- Third detected peak amplitude of a curve (the claim's stride regularity). -/
def third_peak_amp (cfg : GaitCfg) (v : List ℚ) : ℚ :=
  ((peakdet v cfg.delta).1.getD 2 (0, 0)).2

/-! ## Heel-strike detector: heel_strikes (lines 257-297) -/

/-- Refinement of one candidate index against the raw magnitude signal
(lines 288-291 and 236-239): argmax over data[i - decel : i + decel] plus
i - decel; an empty slice makes np.argmax raise ValueError. -/
def refineOne (data : List ℚ) (decel : ℤ) (ismooth : ℤ) : Except PyErr ℤ :=
  let s := pySlice data (ismooth - decel) (ismooth + decel)
  if s.isEmpty then Except.error PyErr.valueError
  else Except.ok ((argmaxFirst s : ℤ) + ismooth - decel)

/-- heel_strikes (lines 257-297): magnitude = sum of absolute axis values,
demeaned; filtered by the (abstract) Butterworth low-pass; candidate strikes
are segment maxima between positive-to-negative crossings exceeding
threshold * max(filtered); refined on the unfiltered signal within a
half-interpeak window; finally re-based to the first index and divided by the
sampling frequency.  Python raises IndexError at strikes[0] when no candidate
survives, and ValueError on an empty refinement slice. -/
def heel_strikes (prims : Prims) (cfg : GaitCfg) (x y z : List ℚ) :
    Except PyErr (List ℚ × List ℤ) :=
  let mag := zipWith3Q (fun a b c => ratAbs a + ratAbs b + ratAbs c) x y z
  let data := demean mag
  let filtered := prims.butter data cfg.sampling_frequency cfg.cutoff_frequency cfg.order
  if filtered.isEmpty then Except.error PyErr.valueError
  else
    let filter_threshold := ratAbs (cfg.threshold * pymax filtered)
    let transitions := crossings_nonzero_pos2neg filtered
    let smooth := (transitions.zip (transitions.drop 1)).filterMap (fun p =>
      let seg := (filtered.drop p.1).take (p.2 - p.1)
      let idx := p.1 + argmaxFirst seg
      if filter_threshold < filtered.getD idx 0 then some idx else none)
    let decel := prims.interpeakFn data cfg.sampling_frequency / 2
    match smooth.mapM (fun i => refineOne data (decel : ℤ) (i : ℤ)) with
    | Except.error e => Except.error e
    | Except.ok [] => Except.error PyErr.indexError
    | Except.ok (k0 :: ks) =>
      Except.ok ((k0 :: ks).map (fun k => ((k - k0 : ℤ) : ℚ) / cfg.sampling_frequency),
                 k0 :: ks)

/-! ## Direction estimator: walk_direction_preheel (lines 222-254) -/

/-- Mean x/y/z vector over the deceleration phase range(ip - decel, ip)
(lines 244-246).  An empty range makes numpy return NaN means; NaN, like an
out-of-range pandas lookup, is modelled as an error so that it can never be
mistaken for a finite vector. -/
def strikeMeanVec (x y z : List ℚ) (decel ip : ℤ) : Except PyErr (ℚ × ℚ × ℚ) :=
  let idxs := intRange (ip - decel) ip
  if idxs.isEmpty then Except.error PyErr.valueError
  else do
    let xs ← idxs.mapM (pyLookup x)
    let ys ← idxs.mapM (pyLookup y)
    let zs ← idxs.mapM (pyLookup z)
    Except.ok (mean xs, mean ys, mean zs)

/-- Lines 222-249 of walk_direction_preheel up to the average deceleration
vector: heel strikes, interpeak-scaled deceleration half-window, per-strike
refinement on the raw magnitude signal, per-strike mean vectors, and their
average across strikes. -/
def strikeAvgVec (prims : Prims) (cfg : GaitCfg) (x y z : List ℚ) :
    Except PyErr (ℚ × ℚ × ℚ) :=
  let mag := zipWith3Q (fun a b c => ratAbs a + ratAbs b + ratAbs c) x y z
  match heel_strikes prims cfg x y z with
  | Except.error e => Except.error e
  | Except.ok (_, ipeaks_smooth) =>
    let interpeak := prims.interpeakFn mag cfg.sampling_frequency
    let decel := roundHalfEven (cfg.stride_fraction * (interpeak : ℚ))
    match ipeaks_smooth.mapM (fun ip => refineOne mag decel ip) with
    | Except.error e => Except.error e
    | Except.ok ipeaks =>
      match ipeaks.mapM (fun ip => strikeMeanVec x y z decel ip) with
      | Except.error e => Except.error e
      | Except.ok vectors =>
        Except.ok (mean (vectors.map (fun v => v.1)),
                   mean (vectors.map (fun v => v.2.1)),
                   mean (vectors.map (fun v => v.2.2)))

/-- Line 249: direction = -1 * np.mean(vectors, axis=0). -/
def wdpCore (prims : Prims) (cfg : GaitCfg) (x y z : List ℚ) :
    Except PyErr (ℚ × ℚ × ℚ) :=
  (strikeAvgVec prims cfg x y z).map (fun a => (-a.1, -a.2.1, -a.2.2))

/-- Line 252: direction /= np.sqrt(direction.dot(direction)), over the reals
(the only genuinely irrational step of the pipeline). -/
noncomputable def norm3 (d : ℚ × ℚ × ℚ) : ℝ × ℝ × ℝ :=
  let n : ℝ := Real.sqrt ((d.1 : ℝ) ^ 2 + (d.2.1 : ℝ) ^ 2 + (d.2.2 : ℝ) ^ 2)
  ((d.1 : ℝ) / n, (d.2.1 : ℝ) / n, (d.2.2 : ℝ) / n)

/-- walk_direction_preheel (lines 222-254). -/
noncomputable def walk_direction_preheel (prims : Prims) (cfg : GaitCfg)
    (x y z : List ℚ) : Except PyErr (ℝ × ℝ × ℝ) :=
  (wdpCore prims cfg x y z).map norm3

/-! ## Gait feature extractor: gait (lines 310-432) -/

/-- The distance branch of gait (lines 418-426), as written.  Python's
`if self.distance:` is a truthiness test: None and 0 both take the else
branch.  The three outputs are velocity, avg_step_length, avg_stride_length. -/
def gaitDistanceOutputs (cfg : GaitCfg) (number_of_steps avg_number_of_strides : ℚ) :
    Option ℚ × Option ℚ × Option ℚ :=
  match cfg.distance with
  | none => (none, none, none)
  | some d =>
    if d = 0 then (none, none, none)
    else (some (d / cfg.duration), some (number_of_steps / d),
          some (avg_number_of_strides / d))

/-- gait (lines 383-432).  After heel_strikes succeeds, lines 385-414 are
total float arithmetic (division by a zero or NaN duration yields non-finite
floats, not exceptions), and line 416 evaluates the unbound name `data`
(the parameter is data_frame and no local `data` exists), raising NameError
before anything is returned; the rest of the body, including the distance
branch, is unreachable. -/
def gait (prims : Prims) (cfg : GaitCfg) (x y z : List ℚ) : Except PyErr Unit :=
  match heel_strikes prims cfg x y z with
  | Except.error e => Except.error e
  | Except.ok _ => Except.error PyErr.nameError

/-! ## Theorems -/

theorem fogLoop_zero (prims : Prims) (cfg : GaitCfg) (data : List ℚ) (jPos : ℕ) :
    fogLoop prims cfg data 0 jPos = ([], [], []) := rfl

theorem fogLoop_succ (prims : Prims) (cfg : GaitCfg) (data : List ℚ) (fuel jPos : ℕ) :
    fogLoop prims cfg data (fuel + 1) jPos =
      if jPos < data.length then
        (jPos :: (fogLoop prims cfg data fuel (jPos + cfg.step_size)).1,
         (freezeAreaAt prims cfg data jPos / locoAreaAt prims cfg data jPos) ::
           (fogLoop prims cfg data fuel (jPos + cfg.step_size)).2.1,
         (freezeAreaAt prims cfg data jPos + locoAreaAt prims cfg data jPos) ::
           (fogLoop prims cfg data fuel (jPos + cfg.step_size)).2.2)
      else ([], [], []) := rfl

theorem fogLoop_length_eq (prims : Prims) (cfg : GaitCfg) (data : List ℚ) :
    ∀ fuel jPos,
      (fogLoop prims cfg data fuel jPos).2.1.length =
        (fogLoop prims cfg data fuel jPos).1.length ∧
      (fogLoop prims cfg data fuel jPos).2.2.length =
        (fogLoop prims cfg data fuel jPos).1.length := by
  intro fuel
  induction fuel with
  | zero => intro jPos; simp [fogLoop_zero]
  | succ fuel ih =>
    intro jPos
    rw [fogLoop_succ]
    by_cases h : jPos < data.length
    · simp [h, (ih (jPos + cfg.step_size)).1, (ih (jPos + cfg.step_size)).2]
    · simp [h]

theorem fogLoop_nth (prims : Prims) (cfg : GaitCfg) (data : List ℚ) :
    ∀ fuel jPos i, i < (fogLoop prims cfg data fuel jPos).1.length →
      (fogLoop prims cfg data fuel jPos).1.getD i 0 = jPos + i * cfg.step_size ∧
      (fogLoop prims cfg data fuel jPos).2.1.getD i 0 =
        freezeAreaAt prims cfg data (jPos + i * cfg.step_size) /
          locoAreaAt prims cfg data (jPos + i * cfg.step_size) ∧
      (fogLoop prims cfg data fuel jPos).2.2.getD i 0 =
        freezeAreaAt prims cfg data (jPos + i * cfg.step_size) +
          locoAreaAt prims cfg data (jPos + i * cfg.step_size) := by
  intro fuel
  induction fuel with
  | zero => intro jPos i h; simp [fogLoop_zero] at h
  | succ fuel ih =>
    intro jPos i h
    rw [fogLoop_succ] at h ⊢
    by_cases hg : jPos < data.length
    · simp only [if_pos hg] at h ⊢
      cases i with
      | zero => simp
      | succ i =>
        have h2 := ih (jPos + cfg.step_size) i (by simpa using h)
        have e : jPos + cfg.step_size + i * cfg.step_size =
            jPos + (i + 1) * cfg.step_size := by ring
        refine ⟨?_, ?_, ?_⟩
        · simpa only [List.getD_cons_succ, ← e] using h2.1
        · simpa only [List.getD_cons_succ, ← e] using h2.2.1
        · simpa only [List.getD_cons_succ, ← e] using h2.2.2
    · simp [if_neg hg] at h

/-- C1: for every run of freeze_of_gait and every window i it produces, the
returned locomotion_freezes entry equals freeze_band_area + loco_band_area
exactly, and the returned freeze_indexes entry equals
freeze_band_area / loco_band_area whenever loco_band_area is non-zero, where
the two areas are the numerical integrals of the window's power spectrum
Pyy = abs(Y)^2 / window over the bin ranges [loco_low_bin - 1, loco_high_bin)
and the analogous freeze-band bins. -/
theorem freeze_of_gait_band_sums (prims : Prims) (cfg : GaitCfg) (data : List ℚ)
    (i : ℕ) (hi : i < (freeze_of_gait prims cfg data).2.2.length) :
    (freeze_of_gait prims cfg data).2.2.getD i 0 =
      freeze_band_area prims cfg data i + loco_band_area prims cfg data i ∧
    (loco_band_area prims cfg data i ≠ 0 →
      (freeze_of_gait prims cfg data).2.1.getD i 0 =
        freeze_band_area prims cfg data i / loco_band_area prims cfg data i) := by
  have hl := (fogLoop_length_eq prims cfg data data.length (cfg.window + 1)).2
  have hi2 : i < (fogLoop prims cfg data data.length (cfg.window + 1)).1.length := by
    rw [← hl]; exact hi
  have h := fogLoop_nth prims cfg data data.length (cfg.window + 1) i hi2
  exact ⟨h.2.2, fun _ => h.2.1⟩

/-- Witness for C1 at a concrete run with two windows and a non-zero
locomotor-band area. -/
theorem freeze_of_gait_band_sums_witness :
    (0 < (freeze_of_gait basePrims baseCfg [1, 2, 3, 4, 5]).2.2.length ∧
      loco_band_area basePrims baseCfg [1, 2, 3, 4, 5] 0 ≠ 0) ∧
    ((freeze_of_gait basePrims baseCfg [1, 2, 3, 4, 5]).2.2.getD 0 0 =
        freeze_band_area basePrims baseCfg [1, 2, 3, 4, 5] 0 +
          loco_band_area basePrims baseCfg [1, 2, 3, 4, 5] 0 ∧
      (freeze_of_gait basePrims baseCfg [1, 2, 3, 4, 5]).2.1.getD 0 0 =
        freeze_band_area basePrims baseCfg [1, 2, 3, 4, 5] 0 /
          loco_band_area basePrims baseCfg [1, 2, 3, 4, 5] 0) :=
  ⟨⟨by decide, by decide⟩,
   ⟨(freeze_of_gait_band_sums basePrims baseCfg [1, 2, 3, 4, 5] 0 (by decide)).1,
    (freeze_of_gait_band_sums basePrims baseCfg [1, 2, 3, 4, 5] 0 (by decide)).2
      (by decide)⟩⟩

/-- C7 counterexample: on an input shorter than `window` samples,
freeze_of_gait does not raise anything — it returns three empty lists.
(No InsufficientDataError exists anywhere in the code, and the embedding of
freeze_of_gait has no error outcome at all because the source has no raise.) -/
theorem freeze_of_gait_short_input_counterexample :
    ([1] : List ℚ).length < baseCfg.window ∧
    freeze_of_gait basePrims baseCfg [1] = ([], [], []) := by decide

/-- C7 amended: an input shorter than `window` samples makes freeze_of_gait
execute zero window iterations and return [[], [], []] silently. -/
theorem freeze_of_gait_short_input_empty (prims : Prims) (cfg : GaitCfg)
    (data : List ℚ) (h : data.length < cfg.window) :
    freeze_of_gait prims cfg data = ([], [], []) := by
  unfold freeze_of_gait
  rcases hn : data.length with _ | n
  · rw [fogLoop_zero]
  · rw [fogLoop_succ, if_neg (by omega)]

/-- Witness for the amended C7 on the empty input. -/
theorem freeze_of_gait_short_input_empty_witness :
    ([] : List ℚ).length < baseCfg.window ∧
    freeze_of_gait basePrims baseCfg [] = ([], [], []) :=
  ⟨by decide, freeze_of_gait_short_input_empty basePrims baseCfg [] (by decide)⟩

/-- C8 counterexample: a window whose locomotor-band area is zero does not
produce a DegenerateSignalError; freeze_of_gait returns normally with an
unguarded quotient in freeze_indexes (0/0 = 0 under the rational convention
here; numpy emits a non-finite float there, and neither raises — no
DegenerateSignalError exists anywhere in the code). -/
theorem freeze_of_gait_zero_loco_counterexample :
    loco_band_area basePrims baseCfg [0, 0, 0, 0, 0] 0 = 0 ∧
    freeze_of_gait basePrims baseCfg [0, 0, 0, 0, 0] =
      ([3, 4], [0, 0], [0, 0]) := by decide

/-- C8 amended: freeze_of_gait performs no zero-denominator guard: every
produced window, including one whose locomotor-band area is zero, gets a
freeze_indexes entry equal to the unguarded quotient
freeze_band_area / loco_band_area. -/
theorem freeze_of_gait_index_unguarded (prims : Prims) (cfg : GaitCfg)
    (data : List ℚ) (i : ℕ) (hi : i < (freeze_of_gait prims cfg data).1.length) :
    (freeze_of_gait prims cfg data).2.1.getD i 0 =
      freeze_band_area prims cfg data i / loco_band_area prims cfg data i :=
  (fogLoop_nth prims cfg data data.length (cfg.window + 1) i hi).2.1

/-- Witness for the amended C8 at a window with zero locomotor-band area. -/
theorem freeze_of_gait_index_unguarded_witness :
    (0 < (freeze_of_gait basePrims baseCfg [0, 0, 0, 0, 0]).1.length ∧
      loco_band_area basePrims baseCfg [0, 0, 0, 0, 0] 0 = 0) ∧
    (freeze_of_gait basePrims baseCfg [0, 0, 0, 0, 0]).2.1.getD 0 0 =
      freeze_band_area basePrims baseCfg [0, 0, 0, 0, 0] 0 /
        loco_band_area basePrims baseCfg [0, 0, 0, 0, 0] 0 :=
  ⟨⟨by decide, by decide⟩,
   freeze_of_gait_index_unguarded basePrims baseCfg [0, 0, 0, 0, 0] 0 (by decide)⟩

/-- C2 amended: whenever heel_strikes returns, the strike times are exactly
the strike sample indices re-based by the first index and divided by the
sampling frequency, and the first time is exactly 0; strict monotonicity of
the times is NOT guaranteed (see the counterexample). -/
theorem heel_strikes_rebased (prims : Prims) (cfg : GaitCfg) (x y z : List ℚ)
    (ts : List ℚ) (ks : List ℤ)
    (h : heel_strikes prims cfg x y z = Except.ok (ts, ks)) :
    ts = ks.map (fun k => ((k - ks.headD 0 : ℤ) : ℚ) / cfg.sampling_frequency) ∧
    ts.headD 1 = 0 := by
  simp only [heel_strikes] at h
  split at h
  · simp at h
  · split at h
    · simp at h
    · simp at h
    · injection h with h2
      injection h2 with h3 h4
      subst h3
      subst h4
      refine ⟨rfl, ?_⟩
      simp

/-- C2 counterexample: a concrete run (identity filter, constant interpeak
estimate 4) in which two accepted candidates are refined to the same raw
maximum, so heel_strikes returns duplicated strike indices [3, 3] and times
[0, 0], which are not strictly increasing. -/
theorem heel_strikes_not_strictly_increasing :
    heel_strikes { basePrims with interpeakFn := fun _ _ => 4 } baseCfg
        [3, 10, 5, 12, 9, 5, 11, 4, 1, 0]
        (List.replicate 10 0) (List.replicate 10 0) =
      Except.ok ([0, 0], [3, 3]) ∧
    ¬ List.Pairwise (fun a b => a < b) ([0, 0] : List ℚ) := by decide

/-- Witness for the amended C2 on the same concrete run. -/
theorem heel_strikes_rebased_witness :
    heel_strikes { basePrims with interpeakFn := fun _ _ => 4 } baseCfg
        [3, 10, 5, 12, 9, 5, 11, 4, 1, 0]
        (List.replicate 10 0) (List.replicate 10 0) =
      Except.ok ([0, 0], [3, 3]) ∧
    (([0, 0] : List ℚ) =
      ([3, 3] : List ℤ).map
        (fun k => ((k - ([3, 3] : List ℤ).headD 0 : ℤ) : ℚ) / baseCfg.sampling_frequency) ∧
     ([0, 0] : List ℚ).headD 1 = 0) :=
  ⟨by decide,
   heel_strikes_rebased { basePrims with interpeakFn := fun _ _ => 4 } baseCfg
     [3, 10, 5, 12, 9, 5, 11, 4, 1, 0]
     (List.replicate 10 0) (List.replicate 10 0) [0, 0] [3, 3] (by decide)⟩

/-- C3: evidence for the code bug in frequency_of_peaks.  On the x-axis
signal [100, 0, 5, 0, 9, 0, 100] with offsets (1, 1) and delta 1, the trimmed
signal [0, 5, 0, 9, 0] has exactly two detected maxima, at positions 1 and 3
with amplitudes 5 and 9.  Line 163 subtracts the signal VALUES at the peak
indices (peaks_data[maxtab[:,0]]), so the code returns 1/(9-5) = 1/4, whereas
the reciprocal mean inter-peak sample spacing of the claim is 1/(3-1) = 1/2. -/
theorem frequency_of_peaks_amplitude_bug :
    frequency_of_peaks baseCfg [100, 0, 5, 0, 9, 0, 100] = 1 / 4 ∧
    peak_position_spacing_freq baseCfg [100, 0, 5, 0, 9, 0, 100] = 1 / 2 ∧
    (peakdet (pySlice ([100, 0, 5, 0, 9, 0, 100] : List ℚ) 1 (-1)) baseCfg.delta).1.length = 2 ∧
    frequency_of_peaks baseCfg [100, 0, 5, 0, 9, 0, 100] ≠
      peak_position_spacing_freq baseCfg [100, 0, 5, 0, 9, 0, 100] := by decide

/-- C4: for a 6-level decomposition, speed_of_gait returns
0.5 * sqrt(WEd1 + WEd2/2 + WEd3/3 + WEd4/4 + WEd5/5) where WEd1..WEd5 are the
finest-to-coarsest detail-band energies divided by the sqrt(2)-scaled
constants 5, 4, 3, 2, 1; the sixth detail energy (coeffs position 1) does not
appear in the returned value. -/
theorem speed_of_gait_formula (prims : Prims) (mag : List ℚ)
    (h : (prims.wavedec mag 6).length = 7) :
    speed_of_gait prims mag 6 =
      (1 / 2) * prims.sqrtFn
        (detail_energy (prims.wavedec mag 6) 1 / (5 * prims.sqrtFn 2) +
         detail_energy (prims.wavedec mag 6) 2 / (4 * prims.sqrtFn 2) / 2 +
         detail_energy (prims.wavedec mag 6) 3 / (3 * prims.sqrtFn 2) / 3 +
         detail_energy (prims.wavedec mag 6) 4 / (2 * prims.sqrtFn 2) / 4 +
         detail_energy (prims.wavedec mag 6) 5 / prims.sqrtFn 2 / 5) := rfl

/-- Witness for C4 at a concrete 7-entry decomposition. -/
theorem speed_of_gait_formula_witness :
    (({ basePrims with
        wavedec := fun _ _ => [[0], [1], [2], [3], [4], [5], [6]] } : Prims).wavedec
          [1] 6).length = 7 ∧
    speed_of_gait { basePrims with
        wavedec := fun _ _ => [[0], [1], [2], [3], [4], [5], [6]] } [1] 6 =
      (1 / 2) * ({ basePrims with
        wavedec := fun _ _ => [[0], [1], [2], [3], [4], [5], [6]] } : Prims).sqrtFn
        (detail_energy [[0], [1], [2], [3], [4], [5], [6]] 1 /
            (5 * ({ basePrims with
              wavedec := fun _ _ => [[0], [1], [2], [3], [4], [5], [6]] } : Prims).sqrtFn 2) +
         detail_energy [[0], [1], [2], [3], [4], [5], [6]] 2 /
            (4 * ({ basePrims with
              wavedec := fun _ _ => [[0], [1], [2], [3], [4], [5], [6]] } : Prims).sqrtFn 2) / 2 +
         detail_energy [[0], [1], [2], [3], [4], [5], [6]] 3 /
            (3 * ({ basePrims with
              wavedec := fun _ _ => [[0], [1], [2], [3], [4], [5], [6]] } : Prims).sqrtFn 2) / 3 +
         detail_energy [[0], [1], [2], [3], [4], [5], [6]] 4 /
            (2 * ({ basePrims with
              wavedec := fun _ _ => [[0], [1], [2], [3], [4], [5], [6]] } : Prims).sqrtFn 2) / 4 +
         detail_energy [[0], [1], [2], [3], [4], [5], [6]] 5 /
            ({ basePrims with
              wavedec := fun _ _ => [[0], [1], [2], [3], [4], [5], [6]] } : Prims).sqrtFn 2 / 5) :=
  ⟨by decide,
   speed_of_gait_formula
     { basePrims with wavedec := fun _ _ => [[0], [1], [2], [3], [4], [5], [6]] }
     [1] (by decide)⟩

/-- C5: when peak detection on each axis autocorrelation finds at least three
maxima, walk_regularity_symmetry returns per axis (x, y, z order) the second
detected peak amplitude as step regularity and the third as stride
regularity, with walk symmetry their difference, packaged as
[step_regularity, stride_regularity, walk_symmetry]. -/
theorem walk_regularity_symmetry_peaks (prims : Prims) (cfg : GaitCfg)
    (x y z : List ℚ)
    (hx : 2 < ((peakdet (prims.autocorrelationFn x) cfg.delta).1).length)
    (hy : 2 < ((peakdet (prims.autocorrelationFn y) cfg.delta).1).length)
    (hz : 2 < ((peakdet (prims.autocorrelationFn z) cfg.delta).1).length) :
    walk_regularity_symmetry prims cfg x y z =
      Except.ok
        ([second_peak_amp cfg (prims.autocorrelationFn x),
          second_peak_amp cfg (prims.autocorrelationFn y),
          second_peak_amp cfg (prims.autocorrelationFn z)],
         [third_peak_amp cfg (prims.autocorrelationFn x),
          third_peak_amp cfg (prims.autocorrelationFn y),
          third_peak_amp cfg (prims.autocorrelationFn z)],
         [third_peak_amp cfg (prims.autocorrelationFn x) -
            second_peak_amp cfg (prims.autocorrelationFn x),
          third_peak_amp cfg (prims.autocorrelationFn y) -
            second_peak_amp cfg (prims.autocorrelationFn y),
          third_peak_amp cfg (prims.autocorrelationFn z) -
            second_peak_amp cfg (prims.autocorrelationFn z)]) := by
  simp [walk_regularity_symmetry, _symmetry, hx, hy, hz,
    second_peak_amp, third_peak_amp]

/-- Witness for C5 with identity autocorrelation and three concrete axis
signals whose peak scans each find exactly three maxima. -/
theorem walk_regularity_symmetry_peaks_witness :
    (2 < ((peakdet (basePrims.autocorrelationFn [0, 5, 0, 7, 0, 9, 0]) baseCfg.delta).1).length ∧
     2 < ((peakdet (basePrims.autocorrelationFn [0, 10, 0, 14, 0, 18, 0]) baseCfg.delta).1).length ∧
     2 < ((peakdet (basePrims.autocorrelationFn [0, 15, 0, 21, 0, 27, 0]) baseCfg.delta).1).length) ∧
    walk_regularity_symmetry basePrims baseCfg
        [0, 5, 0, 7, 0, 9, 0] [0, 10, 0, 14, 0, 18, 0] [0, 15, 0, 21, 0, 27, 0] =
      Except.ok
        ([second_peak_amp baseCfg (basePrims.autocorrelationFn [0, 5, 0, 7, 0, 9, 0]),
          second_peak_amp baseCfg (basePrims.autocorrelationFn [0, 10, 0, 14, 0, 18, 0]),
          second_peak_amp baseCfg (basePrims.autocorrelationFn [0, 15, 0, 21, 0, 27, 0])],
         [third_peak_amp baseCfg (basePrims.autocorrelationFn [0, 5, 0, 7, 0, 9, 0]),
          third_peak_amp baseCfg (basePrims.autocorrelationFn [0, 10, 0, 14, 0, 18, 0]),
          third_peak_amp baseCfg (basePrims.autocorrelationFn [0, 15, 0, 21, 0, 27, 0])],
         [third_peak_amp baseCfg (basePrims.autocorrelationFn [0, 5, 0, 7, 0, 9, 0]) -
            second_peak_amp baseCfg (basePrims.autocorrelationFn [0, 5, 0, 7, 0, 9, 0]),
          third_peak_amp baseCfg (basePrims.autocorrelationFn [0, 10, 0, 14, 0, 18, 0]) -
            second_peak_amp baseCfg (basePrims.autocorrelationFn [0, 10, 0, 14, 0, 18, 0]),
          third_peak_amp baseCfg (basePrims.autocorrelationFn [0, 15, 0, 21, 0, 27, 0]) -
            second_peak_amp baseCfg (basePrims.autocorrelationFn [0, 15, 0, 21, 0, 27, 0])]) :=
  ⟨⟨by decide, by decide, by decide⟩,
   walk_regularity_symmetry_peaks basePrims baseCfg
     [0, 5, 0, 7, 0, 9, 0] [0, 10, 0, 14, 0, 18, 0] [0, 15, 0, 21, 0, 27, 0]
     (by decide) (by decide) (by decide)⟩

/-- C6: whenever the averaging stage of walk_direction_preheel completes with
a non-zero averaged deceleration vector a, the function returns the
normalisation of the negated vector (-a), and that returned 3-vector has
squared Euclidean norm exactly 1 (the floating computation is within
tolerance of this exact value). -/
theorem walk_direction_preheel_unit (prims : Prims) (cfg : GaitCfg)
    (x y z : List ℚ) (a : ℚ × ℚ × ℚ)
    (h1 : strikeAvgVec prims cfg x y z = Except.ok a)
    (h2 : a ≠ (0, 0, 0)) :
    walk_direction_preheel prims cfg x y z =
      Except.ok (norm3 (-a.1, -a.2.1, -a.2.2)) ∧
    (norm3 (-a.1, -a.2.1, -a.2.2)).1 ^ 2 + (norm3 (-a.1, -a.2.1, -a.2.2)).2.1 ^ 2 +
      (norm3 (-a.1, -a.2.1, -a.2.2)).2.2 ^ 2 = 1 := by
  obtain ⟨a1, a2, a3⟩ := a
  have ha : a1 ≠ 0 ∨ a2 ≠ 0 ∨ a3 ≠ 0 := by
    by_contra hc
    push_neg at hc
    exact h2 (by rw [hc.1, hc.2.1, hc.2.2])
  have hS : 0 < ((-a1 : ℚ) : ℝ) ^ 2 + ((-a2 : ℚ) : ℝ) ^ 2 + ((-a3 : ℚ) : ℝ) ^ 2 := by
    rcases ha with h | h | h
    · have hne : ((-a1 : ℚ) : ℝ) ≠ 0 := by exact_mod_cast neg_ne_zero.mpr h
      have hp : 0 < ((-a1 : ℚ) : ℝ) ^ 2 := by positivity
      nlinarith [sq_nonneg ((-a2 : ℚ) : ℝ), sq_nonneg ((-a3 : ℚ) : ℝ)]
    · have hne : ((-a2 : ℚ) : ℝ) ≠ 0 := by exact_mod_cast neg_ne_zero.mpr h
      have hp : 0 < ((-a2 : ℚ) : ℝ) ^ 2 := by positivity
      nlinarith [sq_nonneg ((-a1 : ℚ) : ℝ), sq_nonneg ((-a3 : ℚ) : ℝ)]
    · have hne : ((-a3 : ℚ) : ℝ) ≠ 0 := by exact_mod_cast neg_ne_zero.mpr h
      have hp : 0 < ((-a3 : ℚ) : ℝ) ^ 2 := by positivity
      nlinarith [sq_nonneg ((-a1 : ℚ) : ℝ), sq_nonneg ((-a2 : ℚ) : ℝ)]
  constructor
  · unfold walk_direction_preheel wdpCore
    rw [h1]
    rfl
  · simp only [norm3]
    rw [div_pow, div_pow, div_pow, div_add_div_same, div_add_div_same,
      Real.sq_sqrt hS.le]
    exact div_self (ne_of_gt hS)

/-- Witness for C6 on a concrete run with one detected heel strike whose
averaged deceleration vector is (1, 0, 0). -/
theorem walk_direction_preheel_unit_witness :
    strikeAvgVec basePrims baseCfg [1, 1, 1, 1, 7, 1, 10, 1, 1, 0, 0, 0]
        (List.replicate 12 0) (List.replicate 12 0) = Except.ok (1, 0, 0) ∧
    (walk_direction_preheel basePrims baseCfg [1, 1, 1, 1, 7, 1, 10, 1, 1, 0, 0, 0]
        (List.replicate 12 0) (List.replicate 12 0) =
      Except.ok (norm3 (-(1 : ℚ), -(0 : ℚ), -(0 : ℚ))) ∧
     (norm3 (-(1 : ℚ), -(0 : ℚ), -(0 : ℚ))).1 ^ 2 +
        (norm3 (-(1 : ℚ), -(0 : ℚ), -(0 : ℚ))).2.1 ^ 2 +
        (norm3 (-(1 : ℚ), -(0 : ℚ), -(0 : ℚ))).2.2 ^ 2 = 1) :=
  ⟨by decide,
   walk_direction_preheel_unit basePrims baseCfg [1, 1, 1, 1, 7, 1, 10, 1, 1, 0, 0, 0]
     (List.replicate 12 0) (List.replicate 12 0) (1, 0, 0) (by decide) (by decide)⟩

/-- C9 amended: gait itself never returns (it fails at the regularity step
before the distance branch); the distance branch as written yields None (no
fabricated numbers) for all three distance-based outputs when distance is
unset — and also when it is 0, by Python truthiness — and the three
distance-normalised ratios when a non-zero distance is set. -/
theorem gait_distance_branch (prims : Prims) (cfg : GaitCfg) (steps strides : ℚ) :
    (cfg.distance = none →
      gaitDistanceOutputs cfg steps strides = (none, none, none)) ∧
    (∀ d : ℚ, cfg.distance = some d → d ≠ 0 →
      gaitDistanceOutputs cfg steps strides =
        (some (d / cfg.duration), some (steps / d), some (strides / d))) ∧
    (∀ x y z : List ℚ, ∀ r : Unit, gait prims cfg x y z ≠ Except.ok r) := by
  refine ⟨?_, ?_, ?_⟩
  · intro h
    simp [gaitDistanceOutputs, h]
  · intro d h hd
    simp [gaitDistanceOutputs, h, hd]
  · intro x y z r hok
    unfold gait at hok
    cases hh : heel_strikes prims cfg x y z with
    | error e => rw [hh] at hok; exact Except.noConfusion hok
    | ok p => rw [hh] at hok; exact Except.noConfusion hok

/-- C9 counterexample: with distance set (to 90), a concrete call to gait
does not return the three distance-normalised values — it raises the
regularity-step name error, so nothing at all is returned. -/
theorem gait_distance_set_counterexample :
    baseCfg.distance = some 90 ∧
    gait basePrims baseCfg [1, 1, 1, 1, 7, 1, 10, 1, 1, 0, 0, 0]
      (List.replicate 12 0) (List.replicate 12 0) = Except.error PyErr.nameError := by
  decide

/-- Witness for the amended C9: both distance-branch behaviours at concrete
arguments, and a concrete gait call that produces no output record. -/
theorem gait_distance_branch_witness :
    gaitDistanceOutputs { baseCfg with distance := none } 4 2 = (none, none, none) ∧
    gaitDistanceOutputs baseCfg 4 2 =
      (some ((90 : ℚ) / baseCfg.duration), some ((4 : ℚ) / 90), some ((2 : ℚ) / 90)) ∧
    gait basePrims baseCfg [] [] [] ≠ Except.ok () :=
  ⟨(gait_distance_branch basePrims { baseCfg with distance := none } 4 2).1 rfl,
   (gait_distance_branch basePrims baseCfg 4 2).2.1 90 rfl (by decide),
   (gait_distance_branch basePrims baseCfg 4 2).2.2 [] [] [] ()⟩

/-- C10: gait never returns a result for any input: every run either fails
inside heel_strikes, or — whenever heel_strikes succeeds — reaches the
regularity step, whose argument `data` is an unbound name (the parameter is
data_frame), and fails with NameError; so no call to gait ever produces the
step_regularity, stride_regularity or symmetry outputs. -/
theorem gait_name_error (prims : Prims) (cfg : GaitCfg) (x y z : List ℚ) :
    (∀ r : Unit, gait prims cfg x y z ≠ Except.ok r) ∧
    (∀ p : List ℚ × List ℤ, heel_strikes prims cfg x y z = Except.ok p →
      gait prims cfg x y z = Except.error PyErr.nameError) := by
  constructor
  · intro r hok
    unfold gait at hok
    cases hh : heel_strikes prims cfg x y z with
    | error e => rw [hh] at hok; exact Except.noConfusion hok
    | ok p => rw [hh] at hok; exact Except.noConfusion hok
  · intro p hp
    unfold gait
    rw [hp]

/-- Witness for C10 on a concrete run whose heel_strikes call succeeds. -/
theorem gait_name_error_witness :
    heel_strikes basePrims baseCfg [1, 1, 1, 1, 7, 1, 10, 1, 1, 0, 0, 0]
      (List.replicate 12 0) (List.replicate 12 0) = Except.ok ([0], [6]) ∧
    gait basePrims baseCfg [1, 1, 1, 1, 7, 1, 10, 1, 1, 0, 0, 0]
      (List.replicate 12 0) (List.replicate 12 0) = Except.error PyErr.nameError :=
  ⟨by decide,
   (gait_name_error basePrims baseCfg [1, 1, 1, 1, 7, 1, 10, 1, 1, 0, 0, 0]
     (List.replicate 12 0) (List.replicate 12 0)).2 ([0], [6]) (by decide)⟩
